import Mathlib

/-!
Shallow embedding of `tfx/extensions/google_cloud_ai_platform/runner.py`
(training-job submission/polling and model deployment for AI Platform),
with theorems settling the specification claims about it.

Python dictionaries are modelled as association lists in insertion order
(`List (String × _)`), Python `None`/exceptions as `Option`/`Except`,
and the remote service as an environment parameter: a list of the status
payloads successive polls would observe.
-/

set_option autoImplicit false

namespace AipRunner

/-! ## Version-compatibility helpers (`_get_tf_runtime_version`,
`_get_caip_python_version`, lines 44-81 of runner.py) -/

/-- The static override table `_TF_COMPATIBILITY_OVERRIDE`:
`{'1.15': '1.14'}`. -/
def TF_COMPATIBILITY_OVERRIDE : List (String × String) :=
  [("1.15", "1.14")]

/-- Python's `v.split('.')` on the character list: split at every `'.'`,
keeping empty pieces. -/
def splitDotChars : List Char → List (List Char)
  | [] => [[]]
  | c :: rest =>
      let r := splitDotChars rest
      if c = '.' then [] :: r
      else
        match r with
        | [] => [[c]]
        | h :: tl => (c :: h) :: tl

/-- Python's `'.'.join(pieces)`. -/
def joinDotChars : List (List Char) → List Char
  | [] => []
  | [x] => x
  | x :: y :: rest => x ++ '.' :: joinDotChars (y :: rest)

/-- The `major.minor` prefix of a dotted version string, as computed by
`'.'.join(tf.__version__.split('.')[0:2])`. -/
def tfMajorMinor (v : String) : String :=
  String.mk (joinDotChars ((splitDotChars v.toList).take 2))

/-- Embedding of `_get_tf_runtime_version`, parameterised by the installed
tensorflow version string `tf.__version__` (an environment input).
Returns the `major.minor` of the installed version, except when overridden
by `_TF_COMPATIBILITY_OVERRIDE`. -/
def getTfRuntimeVersion (tfFullVersion : String) : String :=
  (TF_COMPATIBILITY_OVERRIDE.lookup (tfMajorMinor tfFullVersion)).getD
    (tfMajorMinor tfFullVersion)

/-- Embedding of `_get_caip_python_version`, parameterised by
`sys.version_info.major`.  The Python source indexes the dict literal
`{2: '2.7', 3: '3.5'}`; a missing key raises `KeyError`, modelled as
`none`. -/
def getCaipPythonVersion (major : Nat) : Option String :=
  ([(2, "2.7"), (3, "3.5")] : List (Nat × String)).lookup major

/-! ## Python dictionaries

`training_inputs` is a Python dict; it is modelled as its entry list in
insertion order.  The values the function stores or reads are strings,
lists of strings, string-to-string dicts, `None`, or opaque caller-supplied
objects. -/

/-- A Python value as it occurs in the modelled dictionaries. -/
inductive PyVal where
  | str : String → PyVal
  | strList : List String → PyVal
  | dictSS : List (String × String) → PyVal
  | pyNone : PyVal
  | obj : Nat → PyVal
  deriving DecidableEq

/-- `d.get(k)` / `d[k]` lookup: the first binding of `k`, if any. -/
def dictGet {α : Type} (k : String) : List (String × α) → Option α
  | [] => none
  | (k0, v0) :: rest => if k0 = k then some v0 else dictGet k rest

/-- `d[k] = v`: replace the value at `k` in place if the key is present
(Python keeps the key's original insertion position), else append a new
binding at the end. -/
def dictSet {α : Type} (k : String) (v : α) : List (String × α) → List (String × α)
  | [] => [(k, v)]
  | (k0, v0) :: rest =>
      if k0 = k then (k0, v) :: rest else (k0, v0) :: dictSet k v rest

/-- `d.pop(k)` with no default: the popped value (`none` models the
`KeyError` raised on a missing key, in which case the dict is unchanged)
together with the remaining dict. -/
def dictPop {α : Type} (k : String) : List (String × α) → Option α × List (String × α)
  | [] => (none, [])
  | (k0, v0) :: rest =>
      if k0 = k then (some v0, rest)
      else
        let r := dictPop k rest
        (r.1, (k0, v0) :: r.2)

/-- Python truthiness of a `d.get(k)` result, as tested by
`if not training_inputs.get('masterConfig')`: an absent key yields `None`
(falsy); empty strings and empty containers are falsy too. -/
def pyTruthy : Option PyVal → Bool
  | none => false
  | some .pyNone => false
  | some (.str s) => !(s == "")
  | some (.strList l) => !l.isEmpty
  | some (.dictSS d) => !d.isEmpty
  | some (.obj _) => true

/-- Python's `str()` of a modelled value, as used by `'...{}'.format(v)`.
For strings (the only values the code actually formats) it is the string
itself. -/
def pyFormat : PyVal → String
  | .str s => s
  | .strList l => "[" ++ String.intercalate ", " (l.map (fun s => "'" ++ s ++ "'")) ++ "]"
  | .dictSS d =>
      "\x7b" ++ String.intercalate ", "
        (d.map (fun kv => "'" ++ kv.1 ++ "': '" ++ kv.2 ++ "'")) ++ "\x7d"
  | .pyNone => "None"
  | .obj n => "<object " ++ toString n ++ ">"

/-! ## Wall-clock timestamps and `strftime('%Y%m%d%H%M%S')`

`start_aip_training` (line 150) builds the default job id from
`datetime.datetime.now()`, the process's **local-time** clock reading. -/

/-- A wall-clock reading: the fields of a Python `datetime.datetime` that
`strftime('%Y%m%d%H%M%S')` formats. -/
structure PyDateTime where
  year : Nat
  month : Nat
  day : Nat
  hour : Nat
  minute : Nat
  second : Nat
  deriving DecidableEq

/-- The base-10 digits of `n % 10 ^ w`, zero-padded to width `w`, most
significant first — how `strftime` renders each zero-padded field. -/
def padDigits : Nat → Nat → List Nat
  | 0, _ => []
  | w + 1, n => padDigits w (n / 10) ++ [n % 10]

/-- The character for a decimal digit. -/
def digitChar (d : Nat) : Char := Char.ofNat (48 + d)

/-- The digit list of `strftime('%Y%m%d%H%M%S')`: four digits of the year
then two digits of each remaining field. -/
def timestampDigits (t : PyDateTime) : List Nat :=
  padDigits 4 t.year ++ padDigits 2 t.month ++ padDigits 2 t.day ++
    padDigits 2 t.hour ++ padDigits 2 t.minute ++ padDigits 2 t.second

/-- `t.strftime('%Y%m%d%H%M%S')`. -/
def strftimeYmdHMS (t : PyDateTime) : String :=
  String.mk ((timestampDigits t).map digitChar)

/-- Line 150:
`job_id = job_id or 'tfx_%s' % datetime.datetime.now().strftime('%Y%m%d%H%M%S')`.
`now` is the local-time clock reading taken at the call (Python
`datetime.now()` returns local time, not UTC).  Python's `or` falls through
on any falsy value, so an explicit empty string also triggers generation. -/
def defaultJobId (jobId : Option String) (now : PyDateTime) : String :=
  match jobId with
  | some s => if s == "" then "tfx_" ++ strftimeYmdHMS now else s
  | none => "tfx_" ++ strftimeYmdHMS now

/-- Whether `s` matches the pattern `tfx_` followed by exactly 14 decimal
digits (`tfx_YYYYMMDDHHMMSS`). -/
def isTfxJobIdPattern (s : String) : Bool :=
  let cs := s.toList
  cs.length == 18 && cs.take 4 == ['t', 'f', 'x', '_'] && (cs.drop 4).all Char.isDigit

/-- The number denoted by a list of decimal-digit characters. -/
def charsToNum (cs : List Char) : Nat :=
  cs.foldl (fun a c => a * 10 + (c.toNat - 48)) 0

/-- The value a decimal-digit list denotes, used to state the roundtrip. -/
def digitsToNum (ds : List Nat) : Nat :=
  ds.foldl (fun a d => a * 10 + d) 0

/-- Parse an identifier of the form `tfx_YYYYMMDDHHMMSS` back into the
clock reading it encodes (`none` when the shape does not match). -/
def parseTfxJobId (s : String) : Option PyDateTime :=
  if isTfxJobIdPattern s then
    let d0 := s.toList.drop 4
    let d1 := d0.drop 4
    let d2 := d1.drop 2
    let d3 := d2.drop 2
    let d4 := d3.drop 2
    some ⟨charsToNum (d0.take 4), charsToNum (d1.take 2), charsToNum (d2.take 2),
          charsToNum (d3.take 2), charsToNum (d4.take 2), charsToNum (d4.drop 2)⟩
  else none

/-! ## `start_aip_training`: payload assembly (lines 113-151) -/

/-- `_TFX_IMAGE = 'gcr.io/tfx-oss-public/tfx:%s' % (version.__version__)`,
parameterised by the running release version (the `tfx.version` module is
an import, outside the embedded file). -/
def TFX_IMAGE (tfxVersion : String) : String :=
  "gcr.io/tfx-oss-public/tfx:" ++ tfxVersion

/-- The `job_args` list of lines 130-133: four flags carrying the executor
class path and the three serialized dictionaries. -/
def jobArgs (executorClassPath jsonInputs jsonOutputs jsonExecProperties : String) :
    List String :=
  ["--executor_class_path", executorClassPath, "--inputs", jsonInputs,
   "--outputs", jsonOutputs, "--exec-properties", jsonExecProperties]

/-- Modelled from the spec: `monitoring_utils.get_labels_dict()` (the
`tfx.utils.monitoring_utils` module is an import, outside the embedded
file) returns "a fixed set of observability labels" as a dict.  Lines
141-142 assign the result of the expression
`get_labels_dict().update(training_inputs.get('labels'), {})` to
`training_inputs['labels']`.  Per the spec's design notes, "the update
call's return value, not the merged mapping, is assigned": Python's
`dict.update` mutates its receiver in place and returns `None`, so the
assigned value is `None` whatever the defaults and the caller labels were.
(The extra positional `{}` argument would in fact make a plain dict's
`update` raise `TypeError`; the value modelled here is the one the spec
describes being assigned.) -/
def labelsFieldValue (_labelDefaults : List (String × String))
    (_callerLabels : Option PyVal) : PyVal :=
  PyVal.pyNone

/-- The labels field as claim C2 and spec §4.1 step 4 describe it, for
comparison with `labelsFieldValue`: the fixed observability labels with
the caller-supplied labels merged on top (caller labels win on key
collision). -/
def specMergedLabels (labelDefaults callerLabels : List (String × String)) :
    List (String × String) :=
  callerLabels.foldl (fun acc kv => dictSet kv.1 kv.2 acc) labelDefaults

/-- The job specification submitted at lines 151 and 157:
`{'jobId': job_id, 'trainingInput': training_inputs}`. -/
structure JobSpec where
  jobId : String
  trainingInput : List (String × PyVal)
  deriving DecidableEq

/-- The inputs of `start_aip_training` that come from outside the caller's
arguments: the release version (`tfx.version.__version__`), the local-time
clock reading taken at line 150, and the observability labels returned by
`monitoring_utils.get_labels_dict()` (see `labelsFieldValue`). -/
structure AipEnv where
  tfxVersion : String
  now : PyDateTime
  labelDefaults : List (String × String)
  deriving DecidableEq

/-- A heap of Python dict objects.  `training_inputs` is passed by
reference, so the copy made at line 113 and the caller's own dict are
distinct heap cells; mutating one must not change the other. -/
structure PyStore where
  heap : List (List (String × PyVal))
  deriving DecidableEq

/-- Dereference a dict object. -/
def PyStore.read (s : PyStore) (r : Nat) : Option (List (String × PyVal)) :=
  s.heap.get? r

/-- Allocate a fresh dict object holding `d`; returns its reference. -/
def PyStore.alloc (s : PyStore) (d : List (String × PyVal)) : Nat × PyStore :=
  (s.heap.length, ⟨s.heap ++ [d]⟩)

/-- Overwrite the dict object at `r`. -/
def PyStore.write (s : PyStore) (r : Nat) (d : List (String × PyVal)) : PyStore :=
  ⟨s.heap.set r d⟩

/-- Lines 113-151 of `start_aip_training`, with the dictionary mutations
explicit on a heap of dict objects.  `r0` is the caller's
`training_inputs` reference.  In order: `training_inputs.copy()` allocates
a fresh cell; the `masterConfig` defaulting, the `args` and `labels`
assignments and the `project` pop mutate only that cell; the parent path,
the job id and the submitted job spec are computed from it.  A missing
`project` key raises `KeyError` (modelled as `Except.error`); `d.pop` on a
missing key leaves the dict unchanged.  The final heap is returned in both
outcomes. -/
def startAipTrainingMutations (env : AipEnv)
    (executorClassPath jsonInputs jsonOutputs jsonExecProperties : String)
    (s0 : PyStore) (r0 : Nat) (jobId : Option String) :
    PyStore × Except String (String × JobSpec) :=
  match s0.read r0 with
  | none => (s0, Except.error "invalid reference")
  | some tiCaller =>
      let ac := s0.alloc tiCaller
      let r1 := ac.1
      let s1 := ac.2
      let ti1 :=
        if pyTruthy (dictGet "masterConfig" tiCaller) then tiCaller
        else dictSet "masterConfig"
          (PyVal.dictSS [("imageUri", TFX_IMAGE env.tfxVersion)]) tiCaller
      let s2 := s1.write r1 ti1
      let ti2 := dictSet "args"
        (PyVal.strList (jobArgs executorClassPath jsonInputs jsonOutputs jsonExecProperties)) ti1
      let s3 := s2.write r1 ti2
      let ti3 := dictSet "labels"
        (labelsFieldValue env.labelDefaults (dictGet "labels" ti2)) ti2
      let s4 := s3.write r1 ti3
      match dictPop "project" ti3 with
      | (none, _) => (s4, Except.error "KeyError: project")
      | (some projectVal, ti4) =>
          let s5 := s4.write r1 ti4
          let projectId := "projects/" ++ pyFormat projectVal
          let jid := defaultJobId jobId env.now
          (s5, Except.ok (projectId, ⟨jid, ti4⟩))

/-- The parent path and job spec `start_aip_training` submits at line 157,
as a pure function of the caller's `training_inputs` entries (the heap
model run on a one-cell heap). -/
def buildJobSpec (env : AipEnv)
    (executorClassPath jsonInputs jsonOutputs jsonExecProperties : String)
    (trainingInputs : List (String × PyVal)) (jobId : Option String) :
    Except String (String × JobSpec) :=
  (startAipTrainingMutations env executorClassPath jsonInputs jsonOutputs
    jsonExecProperties ⟨[trainingInputs]⟩ 0 jobId).2

/-! ## `start_aip_training`: the polling loop and the final check
(lines 161-176)

The remote service is modelled as the finite sequence of status payloads
successive `request.execute()` calls would observe. -/

/-- A polled training-job status: the `state` entry the code reads at
lines 165 and 169, and the rest of the payload, kept abstract. -/
structure JobStatus where
  state : String
  detail : String
  deriving DecidableEq

/-- Python's `str()` of the status dict as a whole, as interpolated by
`'Detailed response {}.'.format(response)`. -/
def jobStatusRepr (r : JobStatus) : String :=
  "\x7b'state': '" ++ r.state ++ "', " ++ r.detail ++ "\x7d"

/-- The negation of the loop guard at line 165:
`response['state'] not in ('SUCCEEDED', 'FAILED')` — `true` exactly on the
two terminal states. -/
def isTerminalJobState (s : String) : Bool :=
  s == "SUCCEEDED" || s == "FAILED"

/-- Outcome of the polling phase run against a finite prefix of the status
responses: a terminal response was observed (with the number of status
checks and of `time.sleep(_POLLING_INTERVAL_IN_SECONDS)` calls made), or
the prefix was exhausted with the loop still running. -/
inductive PollResult where
  | finished : Nat → Nat → JobStatus → PollResult
  | running : Nat → Nat → PollResult
  deriving DecidableEq

/-- The `while` loop of lines 165-167 over the remaining responses:
`r` is the response just fetched, already counted in `checks`; each
iteration sleeps once and checks once more. -/
def pollLoop (r : JobStatus) (rest : List JobStatus) (checks sleeps : Nat) : PollResult :=
  if isTerminalJobState r.state then PollResult.finished checks sleeps r
  else
    match rest with
    | [] => PollResult.running checks sleeps
    | r2 :: rest2 => pollLoop r2 rest2 (checks + 1) (sleeps + 1)

/-- Lines 163-167: the initial `request.execute()` status check, then the
loop.  An empty sequence means no response was observed at all. -/
def pollJobStatuses : List JobStatus → PollResult
  | [] => PollResult.running 0 0
  | r :: rest => pollLoop r rest 1 0

/-- The polling interval `_POLLING_INTERVAL_IN_SECONDS`. -/
def POLLING_INTERVAL_IN_SECONDS : Nat := 30

/-- The failure message built at lines 170-171:
`'Job \x27...\x27 did not succeed.  Detailed response ....'`. -/
def jobFailedMessage (jobName : String) (response : JobStatus) : String :=
  "Job '" ++ jobName ++ "' did not succeed.  Detailed response " ++
    jobStatusRepr response ++ "."

/-- Lines 169-176: after the loop, raise `RuntimeError(err_msg)` when the
final state is `FAILED`; otherwise log success and return `None`. -/
def finishJob (jobName : String) (response : JobStatus) : Except String Unit :=
  if response.state == "FAILED" then Except.error (jobFailedMessage jobName response)
  else Except.ok ()

/-- The whole wait phase (lines 161-176) against a finite response prefix:
`none` when the prefix is exhausted while the loop is still polling. -/
def waitForJob (jobName : String) (rs : List JobStatus) : Option (Except String Unit) :=
  match pollJobStatuses rs with
  | PollResult.finished _ _ r => some (finishJob jobName r)
  | PollResult.running _ _ => none

/-- `needle` occurs contiguously in `hay`. -/
def containsSubstr (hay needle : String) : Prop :=
  ∃ p q, hay = p ++ needle ++ q

/-! ## Execution-properties serialization (line 119)

`json.dumps(exec_properties, sort_keys=True)`: the entries are rendered in
sorted-key order, so the output is a function of the key-value set alone. -/

/-- A JSON-serializable execution-property value (scalars suffice for the
determinism claim). -/
inductive JVal where
  | jstr : String → JVal
  | jnum : Int → JVal
  | jbool : Bool → JVal
  | jnull : JVal
  deriving DecidableEq

/-- The rendering of one JSON scalar. -/
def renderJVal : JVal → String
  | JVal.jstr s => "\"" ++ s ++ "\""
  | JVal.jnum n => toString n
  | JVal.jbool true => "true"
  | JVal.jbool false => "false"
  | JVal.jnull => "null"

/-- `json.dumps(exec_properties, sort_keys=True)`: entries sorted by key,
each rendered `"key": value`, joined with `", "` between braces.  (String
escaping is omitted; only the fact that the output is a function of the
sorted entry list matters here.) -/
def jsonDumpsSorted (entries : List (String × JVal)) : String :=
  "\x7b" ++ String.intercalate ", "
    ((List.insertionSort (fun a b => a.1 ≤ b.1) entries).map
      (fun kv => "\"" ++ kv.1 ++ "\": " ++ renderJVal kv.2)) ++ "\x7d"

/-! ## `deploy_model_for_aip_prediction` (lines 179-251) -/

/-- A `googleapiclient.errors.HttpError`: the HTTP status of `e.resp` and
the rest of the error, abstracted to its string form. -/
structure HttpError where
  status : Nat
  reason : String
  deriving DecidableEq

/-- Python's `str()` of an `HttpError`, as interpolated by
`'AI Platform Push failed: {}'.format(e)`. -/
def httpErrorStr (e : HttpError) : String :=
  "<HttpError " ++ toString e.status ++ ": " ++ e.reason ++ ">"

/-- Lines 207-215: the `models().create` call inside
`try/except errors.HttpError`, parameterised by the call's outcome
(`none`: the create succeeded; `some e`: it raised `e`).  A 409 status is
swallowed with a warning; any other `HttpError` is re-raised as
`RuntimeError('AI Platform Push failed: ...')`. -/
def handleModelCreate (outcome : Option HttpError) : Except String Unit :=
  match outcome with
  | none => Except.ok ()
  | some e =>
      if e.status = 409 then Except.ok ()
      else Except.error ("AI Platform Push failed: " ++ httpErrorStr e)

/-- A polled long-running-operation status, as the fields the deploy loop
reads: `deploy_status.get('done')` (an absent key is falsy, like an
explicit `False`), the `error` entry if present (abstracted to its string
form), and the `response` entry if present — itself a dict, in which the
code looks up `'name'`. -/
structure OpStatus where
  done : Bool
  error : Option String
  response : Option (List (String × String))
  deriving DecidableEq

/-- The failure message of lines 242-244:
`'Failed to deploy model to AI Platform for serving: {}'.format(deploy_status['error'])`. -/
def deployFailedMessage (err : String) : String :=
  "Failed to deploy model to AI Platform for serving: " ++ err

/-- What one iteration of the deploy polling loop does with the status it
just fetched. -/
inductive DeployStep where
  /-- `versions().setDefault` is issued for this version name and the loop
  breaks (lines 233-238). -/
  | setDefaultAndBreak : String → DeployStep
  /-- `deploy_status['response']['name']` raised `KeyError` inside the
  `done` branch. -/
  | keyError : DeployStep
  /-- `raise RuntimeError(...)` at lines 242-244. -/
  | deployFailed : String → DeployStep
  /-- Fall through to `time.sleep` and poll again (lines 246-247). -/
  | sleepAndContinue : DeployStep
  deriving DecidableEq

/-- The body of `while True:` at lines 231-247, in the source's order: the
`done` check first (issuing `setDefault` and breaking), then the
`'error' in deploy_status` check (raising), else sleep and continue. -/
def deployLoopBody (st : OpStatus) : DeployStep :=
  if st.done then
    match st.response with
    | some resp =>
        match dictGet "name" resp with
        | some n => DeployStep.setDefaultAndBreak n
        | none => DeployStep.keyError
    | none => DeployStep.keyError
  else if st.error.isSome then
    DeployStep.deployFailed (deployFailedMessage (st.error.getD ""))
  else DeployStep.sleepAndContinue

/-- Outcome of the deploy polling loop run against a finite prefix of the
operation statuses, with the number of `operations().get` polls made. -/
inductive DeployOutcome where
  | setDefault : String → Nat → DeployOutcome
  | keyError : Nat → DeployOutcome
  | deployFailed : String → Nat → DeployOutcome
  | stillPolling : Nat → DeployOutcome
  deriving DecidableEq

/-- The `while True:` loop of lines 231-247 threaded over the statuses the
successive polls observe. -/
def deployPollLoop : List OpStatus → Nat → DeployOutcome
  | [], polls => DeployOutcome.stillPolling polls
  | st :: rest, polls =>
      match deployLoopBody st with
      | DeployStep.setDefaultAndBreak n => DeployOutcome.setDefault n (polls + 1)
      | DeployStep.keyError => DeployOutcome.keyError (polls + 1)
      | DeployStep.deployFailed m => DeployOutcome.deployFailed m (polls + 1)
      | DeployStep.sleepAndContinue => deployPollLoop rest (polls + 1)

/-! ### Dictionary lemmas -/

theorem dictGet_dictSet_self {α : Type} (k : String) (v : α) (d : List (String × α)) :
    dictGet k (dictSet k v d) = some v := by
  induction d with
  | nil => simp [dictGet, dictSet]
  | cons hd tl ih =>
      by_cases h : hd.1 = k <;> simp [dictGet, dictSet, h, ih]

theorem dictGet_dictSet_ne {α : Type} {k k2 : String} (v : α) (d : List (String × α))
    (h : k2 ≠ k) : dictGet k (dictSet k2 v d) = dictGet k d := by
  induction d with
  | nil => simp [dictGet, dictSet, h]
  | cons hd tl ih =>
      by_cases h2 : hd.1 = k2 <;> simp [dictGet, dictSet, h2, ih]
      rw [if_neg (h2 ▸ h), if_neg (h2 ▸ h)]

theorem dictPop_fst {α : Type} (k : String) (d : List (String × α)) :
    (dictPop k d).1 = dictGet k d := by
  induction d with
  | nil => simp [dictGet, dictPop]
  | cons hd tl ih =>
      by_cases h : hd.1 = k <;> simp [dictGet, dictPop, h, ih]

theorem dictGet_dictPop_ne {α : Type} {k k2 : String} (d : List (String × α))
    (h : k2 ≠ k) : dictGet k (dictPop k2 d).2 = dictGet k d := by
  induction d with
  | nil => simp [dictGet, dictPop]
  | cons hd tl ih =>
      by_cases h2 : hd.1 = k2
      · simp [dictGet, dictPop, h2, ih]
        rw [if_neg (h2 ▸ h)]
      · simp [dictGet, dictPop, h2, ih]


/-! ### Roundtrip lemmas for the timestamp encoding -/

theorem padDigits_length (w n : Nat) : (padDigits w n).length = w := by
  induction w generalizing n with
  | zero => simp [padDigits]
  | succ w ih => simp [padDigits, ih]

theorem padDigits_lt_ten (w n : Nat) : ∀ d ∈ padDigits w n, d < 10 := by
  induction w generalizing n with
  | zero => simp [padDigits]
  | succ w ih =>
      intro d hd
      simp only [padDigits, List.mem_append, List.mem_singleton] at hd
      rcases hd with h | h
      · exact ih (n / 10) d h
      · omega

theorem digitsToNum_padDigits (w n : Nat) : digitsToNum (padDigits w n) = n % 10 ^ w := by
  induction w generalizing n with
  | zero => simp [padDigits, digitsToNum, Nat.mod_one]
  | succ w ih =>
      have h1 : digitsToNum (padDigits w (n / 10) ++ [n % 10])
          = digitsToNum (padDigits w (n / 10)) * 10 + n % 10 := by
        simp [digitsToNum, List.foldl_append]
      have h3 : n % (10 * 10 ^ w) = n % 10 + 10 * (n / 10 % 10 ^ w) := Nat.mod_mul
      have h4 : (10 : Nat) ^ (w + 1) = 10 * 10 ^ w := by ring
      rw [padDigits, h1, ih (n / 10), h4, h3]
      omega

theorem toNat_digitChar {d : Nat} (h : d < 10) : (digitChar d).toNat = 48 + d := by
  interval_cases d <;> decide

theorem digitChar_isDigit {d : Nat} (h : d < 10) : (digitChar d).isDigit = true := by
  interval_cases d <;> decide

theorem charsToNum_map_digitChar (ds : List Nat) (h : ∀ d ∈ ds, d < 10) :
    charsToNum (ds.map digitChar) = digitsToNum ds := by
  suffices hgen : ∀ a : Nat, List.foldl (fun a c => a * 10 + (c.toNat - 48)) a (ds.map digitChar)
      = List.foldl (fun a d => a * 10 + d) a ds by
    exact hgen 0
  induction ds with
  | nil => intro a; simp
  | cons d tl ih =>
      intro a
      have hd : d < 10 := h d (by simp)
      have htl : ∀ x ∈ tl, x < 10 := fun x hx => h x (by simp [hx])
      simp only [List.map_cons, List.foldl_cons]
      rw [toNat_digitChar hd]
      rw [ih htl (a * 10 + (48 + d - 48))]
      have : 48 + d - 48 = d := by omega
      rw [this]

theorem timestampDigits_length (t : PyDateTime) : (timestampDigits t).length = 14 := by
  simp [timestampDigits, padDigits_length]

theorem timestampDigits_lt_ten (t : PyDateTime) : ∀ d ∈ timestampDigits t, d < 10 := by
  intro d hd
  simp only [timestampDigits, List.mem_append] at hd
  rcases hd with ((((h | h) | h) | h) | h) | h <;> exact padDigits_lt_ten _ _ d h

theorem toList_generated_jobId (t : PyDateTime) :
    ("tfx_" ++ strftimeYmdHMS t).toList
      = ['t', 'f', 'x', '_'] ++ (timestampDigits t).map digitChar := by
  show ("tfx_" ++ strftimeYmdHMS t).data = _
  rw [String.data_append]
  rfl

theorem isTfxJobIdPattern_generated (t : PyDateTime) :
    isTfxJobIdPattern ("tfx_" ++ strftimeYmdHMS t) = true := by
  have hl := toList_generated_jobId t
  have htake : (("tfx_" ++ strftimeYmdHMS t).toList).take 4 = ['t', 'f', 'x', '_'] := by
    rw [hl]; exact List.take_left' rfl
  have hdrop : (("tfx_" ++ strftimeYmdHMS t).toList).drop 4 = (timestampDigits t).map digitChar := by
    rw [hl]; exact List.drop_left' rfl
  have hlen : (("tfx_" ++ strftimeYmdHMS t).toList).length = 18 := by
    rw [hl]; simp [timestampDigits_length]
  simp only [isTfxJobIdPattern, htake, hdrop, hlen]
  simp only [beq_self_eq_true, Bool.true_and]
  rw [List.all_eq_true]
  intro c hc
  rcases List.mem_map.mp hc with ⟨d, hd, rfl⟩
  exact digitChar_isDigit (timestampDigits_lt_ten t d hd)

theorem parseTfxJobId_generated (t : PyDateTime)
    (hy : t.year ≤ 9999) (hmo : t.month ≤ 99) (hd : t.day ≤ 99) (hh : t.hour ≤ 99)
    (hmi : t.minute ≤ 99) (hs : t.second ≤ 99) :
    parseTfxJobId ("tfx_" ++ strftimeYmdHMS t) = some t := by
  have hpat := isTfxJobIdPattern_generated t
  have hl := toList_generated_jobId t
  have hdrop : (("tfx_" ++ strftimeYmdHMS t).toList).drop 4 = (timestampDigits t).map digitChar := by
    rw [hl]; exact List.drop_left' rfl
  have hts : timestampDigits t
      = padDigits 4 t.year ++ (padDigits 2 t.month ++ (padDigits 2 t.day ++
          (padDigits 2 t.hour ++ (padDigits 2 t.minute ++ padDigits 2 t.second)))) := by
    simp [timestampDigits, List.append_assoc]
  have h4take : ∀ (a : Nat) (rest : List Nat),
      ((padDigits 4 a ++ rest).map digitChar).take 4 = (padDigits 4 a).map digitChar := by
    intro a rest
    rw [← List.map_take, List.take_left' (padDigits_length 4 a)]
  have h4drop : ∀ (a : Nat) (rest : List Nat),
      ((padDigits 4 a ++ rest).map digitChar).drop 4 = rest.map digitChar := by
    intro a rest
    rw [← List.map_drop, List.drop_left' (padDigits_length 4 a)]
  have h2take : ∀ (a : Nat) (rest : List Nat),
      ((padDigits 2 a ++ rest).map digitChar).take 2 = (padDigits 2 a).map digitChar := by
    intro a rest
    rw [← List.map_take, List.take_left' (padDigits_length 2 a)]
  have h2drop : ∀ (a : Nat) (rest : List Nat),
      ((padDigits 2 a ++ rest).map digitChar).drop 2 = rest.map digitChar := by
    intro a rest
    rw [← List.map_drop, List.drop_left' (padDigits_length 2 a)]
  have hval : ∀ (w a : Nat), a < 10 ^ w → charsToNum ((padDigits w a).map digitChar) = a := by
    intro w a ha
    rw [charsToNum_map_digitChar _ (padDigits_lt_ten w a), digitsToNum_padDigits,
      Nat.mod_eq_of_lt ha]
  rw [parseTfxJobId, if_pos hpat]
  simp only [hdrop, hts, h4take, h4drop, h2take, h2drop]
  rw [hval 4 t.year (by omega), hval 2 t.month (by omega), hval 2 t.day (by omega),
    hval 2 t.hour (by omega), hval 2 t.minute (by omega), hval 2 t.second (by omega)]


/-! ## Claim theorems -/

/-- C6: version-compatibility resolution is a deterministic table lookup
with no external calls: a tensorflow version whose major.minor is "1.15"
resolves to runtime version "1.14"; one whose major.minor is "1.13"
resolves to "1.13"; interpreter major version 2 resolves to "2.7", major
version 3 to "3.5", and major version 4 fails the lookup (`KeyError`). -/
theorem version_compatibility_resolution :
    (∀ v : String, tfMajorMinor v = "1.15" → getTfRuntimeVersion v = "1.14") ∧
    (∀ v : String, tfMajorMinor v = "1.13" → getTfRuntimeVersion v = "1.13") ∧
    getCaipPythonVersion 2 = some "2.7" ∧
    getCaipPythonVersion 3 = some "3.5" ∧
    getCaipPythonVersion 4 = none := by
  refine ⟨fun v hv => ?_, fun v hv => ?_, by decide, by decide, by decide⟩ <;>
    simp [getTfRuntimeVersion, hv, TF_COMPATIBILITY_OVERRIDE, List.lookup]

/-- Witness for C6 at the concrete installed versions "1.15.0" and
"1.13.1". -/
theorem version_compatibility_resolution_witness :
    getTfRuntimeVersion "1.15.0" = "1.14" ∧ getTfRuntimeVersion "1.13.1" = "1.13" :=
  ⟨version_compatibility_resolution.1 "1.15.0" (by decide),
   version_compatibility_resolution.2.1 "1.13.1" (by decide)⟩

/-- C5: a 409 "already exists" conflict from the model-create call is
swallowed (execution continues to version creation); any other HTTP error
status raises. -/
theorem model_create_conflict_swallowed (e : HttpError) :
    (e.status = 409 → handleModelCreate (some e) = Except.ok ()) ∧
    (e.status ≠ 409 →
      handleModelCreate (some e)
        = Except.error ("AI Platform Push failed: " ++ httpErrorStr e)) := by
  constructor <;> intro h <;> simp [handleModelCreate, h]

/-- Witness for C5: a 409 conflict is swallowed, a 403 raises. -/
theorem model_create_conflict_swallowed_witness :
    handleModelCreate (some ⟨409, "model already exists"⟩) = Except.ok () ∧
    handleModelCreate (some ⟨403, "forbidden"⟩)
      = Except.error ("AI Platform Push failed: " ++ httpErrorStr ⟨403, "forbidden"⟩) :=
  ⟨(model_create_conflict_swallowed ⟨409, "model already exists"⟩).1 rfl,
   (model_create_conflict_swallowed ⟨403, "forbidden"⟩).2 (by decide)⟩

/-- C1 (code bug): the deploy loop checks `done` before `error`, so an
operation that completes (`done` set) carrying an `error` field never
reaches the `raise RuntimeError` branch: with no `response` entry the done
branch raises `KeyError` on `deploy_status['response']`, and with a
`response` entry present the set-default call is issued despite the error.
The `DeployFailed` branch fires only on a payload whose `done` is falsy,
contradicting the claim that completion with an error fails with
`DeployFailed` and that set-default is issued only on error-free
completion. -/
theorem deploy_done_with_error_skips_deploy_failed :
    deployPollLoop [⟨true, some "quota exceeded", none⟩] 0
      = DeployOutcome.keyError 1 ∧
    deployPollLoop [⟨true, some "quota exceeded", some [("name", "v2")]⟩] 0
      = DeployOutcome.setDefault "v2" 1 ∧
    deployPollLoop [⟨false, some "quota exceeded", none⟩] 0
      = DeployOutcome.deployFailed (deployFailedMessage "quota exceeded") 1 := by
  decide

/-- C2 (code bug): the submitted `labels` field is the return value of the
`dict.update` call — `None` — and not the merge of the observability
defaults with the caller-supplied labels that the claim describes. -/
theorem labels_field_discards_merge :
    (buildJobSpec ⟨"0.14.0", ⟨2019, 11, 22, 10, 20, 30⟩, [("tfx_version", "0.14.0")]⟩
        "path.to.Executor" "\x7b\x7d" "\x7b\x7d" "\x7b\x7d"
        [("project", PyVal.str "p1"), ("labels", PyVal.dictSS [("team", "ml")])]
        none).toOption.map (fun x => dictGet "labels" x.2.trainingInput)
      = some (some PyVal.pyNone) ∧
    specMergedLabels [("tfx_version", "0.14.0")] [("team", "ml")]
      = [("tfx_version", "0.14.0"), ("team", "ml")] ∧
    PyVal.pyNone ≠ PyVal.dictSS [("tfx_version", "0.14.0"), ("team", "ml")] := by
  decide

/-- C7 (counterexample): the generated job id encodes `datetime.now()`,
the local clock reading, not UTC.  With the local clock at
2020-01-01 12:00:00 while UTC reads 2020-01-01 04:00:00 (a UTC+8 zone),
the generated identifier differs from the UTC-derived identifier the
claim asserts. -/
theorem generated_job_id_not_utc_counterexample :
    defaultJobId none ⟨2020, 1, 1, 12, 0, 0⟩ = "tfx_20200101120000" ∧
    "tfx_" ++ strftimeYmdHMS ⟨2020, 1, 1, 4, 0, 0⟩ = "tfx_20200101040000" ∧
    defaultJobId none ⟨2020, 1, 1, 12, 0, 0⟩
      ≠ "tfx_" ++ strftimeYmdHMS ⟨2020, 1, 1, 4, 0, 0⟩ := by
  decide

/-- C7 (amended): when `job_id` is omitted, the generated identifier is
`tfx_` followed by `strftime('%Y%m%d%H%M%S')` of the local-time clock
reading taken at the call (`datetime.datetime.now()`); it matches the
pattern `tfx_YYYYMMDDHHMMSS` and parses back to exactly that clock
reading. -/
theorem generated_job_id_encodes_call_time (now : PyDateTime)
    (hy : now.year ≤ 9999) (hmo : now.month ≤ 12) (hd : now.day ≤ 31)
    (hh : now.hour ≤ 23) (hmi : now.minute ≤ 59) (hs : now.second ≤ 59) :
    defaultJobId none now = "tfx_" ++ strftimeYmdHMS now ∧
    isTfxJobIdPattern (defaultJobId none now) = true ∧
    parseTfxJobId (defaultJobId none now) = some now := by
  refine ⟨rfl, ?_, ?_⟩
  · exact isTfxJobIdPattern_generated now
  · exact parseTfxJobId_generated now hy (by omega) (by omega) (by omega) (by omega) (by omega)

/-- Witness for C7 (amended) at a concrete clock reading. -/
theorem generated_job_id_encodes_call_time_witness :
    parseTfxJobId (defaultJobId none ⟨2019, 11, 22, 10, 20, 30⟩)
      = some ⟨2019, 11, 22, 10, 20, 30⟩ :=
  (generated_job_id_encodes_call_time ⟨2019, 11, 22, 10, 20, 30⟩ (by decide) (by decide)
    (by decide) (by decide) (by decide) (by decide)).2.2

/-- If the loop of lines 165-167 reports a terminal response, that
response's state is terminal and the number of checks exceeds the number
of sleeps by exactly the initial difference. -/
theorem pollLoop_finished_inv :
    ∀ (rest : List JobStatus) (r : JobStatus) (c s c2 s2 : Nat) (r2 : JobStatus),
      pollLoop r rest c s = PollResult.finished c2 s2 r2 →
      isTerminalJobState r2.state = true ∧ c2 + s = s2 + c := by
  intro rest
  induction rest with
  | nil =>
      intro r c s c2 s2 r2 h
      by_cases ht : isTerminalJobState r.state = true
      · rw [pollLoop, if_pos ht] at h
        simp only [PollResult.finished.injEq] at h
        obtain ⟨hc, hs2, hr⟩ := h
        subst hc; subst hs2; subst hr
        exact ⟨ht, Nat.add_comm _ _⟩
      · rw [pollLoop, if_neg ht] at h
        simp at h
  | cons rb rest2 ih =>
      intro r c s c2 s2 r2 h
      by_cases ht : isTerminalJobState r.state = true
      · rw [pollLoop, if_pos ht] at h
        simp only [PollResult.finished.injEq] at h
        obtain ⟨hc, hs2, hr⟩ := h
        subst hc; subst hs2; subst hr
        exact ⟨ht, Nat.add_comm _ _⟩
      · rw [pollLoop, if_neg ht] at h
        have h2 := ih rb (c + 1) (s + 1) c2 s2 r2 h
        exact ⟨h2.1, by omega⟩

/-- If the first terminal response is at position `i`, the loop checks
exactly once per observation up to it and exits there. -/
theorem pollLoop_reaches_first_terminal :
    ∀ (rest : List JobStatus) (r : JobStatus) (c s i : Nat) (h : i < (r :: rest).length),
      (∀ x ∈ (r :: rest).take i, isTerminalJobState x.state = false) →
      isTerminalJobState ((r :: rest).get ⟨i, h⟩).state = true →
      pollLoop r rest c s = PollResult.finished (c + i) (s + i) ((r :: rest).get ⟨i, h⟩) := by
  intro rest
  induction rest with
  | nil =>
      intro r c s i h hpre hterm
      have hi : i = 0 := by
        simp only [List.length_cons, List.length_nil] at h
        omega
      subst hi
      have hterm2 : isTerminalJobState r.state = true := hterm
      rw [pollLoop, if_pos hterm2]
      rfl
  | cons rb rest2 ih =>
      intro r c s i h hpre hterm
      cases i with
      | zero =>
          have hterm2 : isTerminalJobState r.state = true := hterm
          rw [pollLoop, if_pos hterm2]
          rfl
      | succ j =>
          have hr : isTerminalJobState r.state = false := by
            apply hpre
            rw [List.take_succ_cons]
            exact List.mem_cons_self r _
          rw [pollLoop, if_neg (by simp [hr])]
          have hlen : j < (rb :: rest2).length := by
            simp only [List.length_cons] at h ⊢
            omega
          have hpre2 : ∀ x ∈ (rb :: rest2).take j, isTerminalJobState x.state = false := by
            intro x hx
            apply hpre
            rw [List.take_succ_cons]
            exact List.mem_cons_of_mem r hx
          have hterm2 : isTerminalJobState ((rb :: rest2).get ⟨j, hlen⟩).state = true := hterm
          have h2 := ih rb (c + 1) (s + 1) j hlen hpre2 hterm2
          rw [h2]
          simp only [PollResult.finished.injEq]
          exact ⟨by omega, by omega, by trivial⟩

/-- On a run of non-terminal responses the loop consumes every response,
one check per observation with a sleep between successive checks, and
never exits. -/
theorem pollLoop_all_nonterminal :
    ∀ (rest : List JobStatus) (r : JobStatus) (c s : Nat),
      isTerminalJobState r.state = false →
      (∀ x ∈ rest, isTerminalJobState x.state = false) →
      pollLoop r rest c s = PollResult.running (c + rest.length) (s + rest.length) := by
  intro rest
  induction rest with
  | nil =>
      intro r c s hr _
      rw [pollLoop, if_neg (by simp [hr])]
      rfl
  | cons rb rest2 ih =>
      intro r c s hr hall
      rw [pollLoop, if_neg (by simp [hr])]
      have h2 := ih rb (c + 1) (s + 1) (hall rb (List.mem_cons_self rb _))
        (fun x hx => hall x (List.mem_cons_of_mem rb hx))
      rw [h2]
      simp only [PollResult.running.injEq, List.length_cons]
      exact ⟨by omega, by omega⟩

/-- C3: for every sequence of status responses, the polling loop of
`start_aip_training` exits exactly when the observed state is SUCCEEDED
or FAILED: if the first terminal state appears at position `i`, the loop
has issued one status check per observation (`i + 1` checks) with a sleep
between successive checks (`i` sleeps) and exits there; on a sequence of
only non-terminal states (PENDING, RUNNING, ...) it checks once per
observation and never exits; and whenever it exits, the final state is
terminal. -/
theorem polling_exits_exactly_on_terminal (rs : List JobStatus) :
    (∀ (i : Nat) (h : i < rs.length),
        (∀ r ∈ rs.take i, isTerminalJobState r.state = false) →
        isTerminalJobState (rs.get ⟨i, h⟩).state = true →
        pollJobStatuses rs = PollResult.finished (i + 1) i (rs.get ⟨i, h⟩)) ∧
    ((∀ r ∈ rs, isTerminalJobState r.state = false) →
        pollJobStatuses rs = PollResult.running rs.length (rs.length - 1)) ∧
    (∀ (c s : Nat) (r : JobStatus),
        pollJobStatuses rs = PollResult.finished c s r →
        isTerminalJobState r.state = true ∧ c = s + 1) := by
  cases rs with
  | nil =>
      refine ⟨?_, ?_, ?_⟩
      · intro i h
        simp at h
      · intro _
        rfl
      · intro c s r h
        simp [pollJobStatuses] at h
  | cons r0 rest =>
      refine ⟨?_, ?_, ?_⟩
      · intro i h hpre hterm
        have h2 := pollLoop_reaches_first_terminal rest r0 1 0 i h hpre hterm
        show pollLoop r0 rest 1 0 = _
        rw [h2]
        simp only [PollResult.finished.injEq]
        exact ⟨by omega, by omega, by trivial⟩
      · intro hall
        have h2 := pollLoop_all_nonterminal rest r0 1 0 (hall r0 (List.mem_cons_self r0 _))
          (fun x hx => hall x (List.mem_cons_of_mem r0 hx))
        show pollLoop r0 rest 1 0 = _
        rw [h2]
        simp only [PollResult.running.injEq, List.length_cons]
        exact ⟨by omega, by omega⟩
      · intro c s r h
        have h2 := pollLoop_finished_inv rest r0 1 0 c s r h
        exact ⟨h2.1, by omega⟩

/-- Witness for C3: PENDING, RUNNING, then SUCCEEDED — three status
checks, two sleeps, exit on the first terminal response. -/
theorem polling_exits_exactly_on_terminal_witness :
    pollJobStatuses [⟨"PENDING", "a"⟩, ⟨"RUNNING", "b"⟩, ⟨"SUCCEEDED", "c"⟩]
      = PollResult.finished 3 2 ⟨"SUCCEEDED", "c"⟩ :=
  (polling_exits_exactly_on_terminal
      [⟨"PENDING", "a"⟩, ⟨"RUNNING", "b"⟩, ⟨"SUCCEEDED", "c"⟩]).1 2
    (by decide) (by decide) (by decide)

/-- C4: when the last observed state is FAILED the call raises
`RuntimeError` whose message contains both the job resource name and the
full last-observed status payload; when it is SUCCEEDED the call returns
without raising. -/
theorem failed_state_raises_with_name_and_payload (jobName : String)
    (rs : List JobStatus) (c s : Nat) (r : JobStatus)
    (hpoll : pollJobStatuses rs = PollResult.finished c s r) :
    (r.state = "FAILED" →
        waitForJob jobName rs = some (Except.error (jobFailedMessage jobName r)) ∧
        containsSubstr (jobFailedMessage jobName r) jobName ∧
        containsSubstr (jobFailedMessage jobName r) (jobStatusRepr r)) ∧
    (r.state = "SUCCEEDED" →
        waitForJob jobName rs = some (Except.ok ())) := by
  constructor
  · intro hf
    refine ⟨?_, ?_, ?_⟩
    · rw [waitForJob, hpoll]
      simp [finishJob, hf]
    · exact ⟨"Job '", "' did not succeed.  Detailed response " ++ jobStatusRepr r ++ ".",
        by simp only [jobFailedMessage, String.append_assoc]⟩
    · refine ⟨"Job '" ++ jobName ++ "' did not succeed.  Detailed response ", ".", ?_⟩
      simp only [jobFailedMessage, String.append_assoc]
  · intro hs2
    rw [waitForJob, hpoll]
    simp [finishJob, hs2]

/-- Witness for C4: a FAILED final status raises with the job name and the
payload in the message; a SUCCEEDED one returns. -/
theorem failed_state_raises_with_name_and_payload_witness :
    (waitForJob "projects/p1/jobs/tfx_1" [⟨"FAILED", "'k': 'v'"⟩]
        = some (Except.error
            (jobFailedMessage "projects/p1/jobs/tfx_1" ⟨"FAILED", "'k': 'v'"⟩)) ∧
      containsSubstr (jobFailedMessage "projects/p1/jobs/tfx_1" ⟨"FAILED", "'k': 'v'"⟩)
        "projects/p1/jobs/tfx_1" ∧
      containsSubstr (jobFailedMessage "projects/p1/jobs/tfx_1" ⟨"FAILED", "'k': 'v'"⟩)
        (jobStatusRepr ⟨"FAILED", "'k': 'v'"⟩)) ∧
    waitForJob "projects/p1/jobs/tfx_2" [⟨"SUCCEEDED", ""⟩] = some (Except.ok ()) :=
  ⟨(failed_state_raises_with_name_and_payload "projects/p1/jobs/tfx_1"
      [⟨"FAILED", "'k': 'v'"⟩] 1 0 ⟨"FAILED", "'k': 'v'"⟩ (by decide)).1 rfl,
   (failed_state_raises_with_name_and_payload "projects/p1/jobs/tfx_2"
      [⟨"SUCCEEDED", ""⟩] 1 0 ⟨"SUCCEEDED", ""⟩ (by decide)).2 rfl⟩

/-- Writing one heap cell leaves every other cell unchanged. -/
theorem pyStore_read_write_ne (s : PyStore) {r r2 : Nat} (d : List (String × PyVal))
    (h : r2 ≠ r) : (s.write r2 d).read r = s.read r := by
  show (s.heap.set r2 d).get? r = s.heap.get? r
  exact List.get?_set_ne d s.heap h

/-- Allocation leaves every existing cell unchanged. -/
theorem pyStore_read_alloc (s : PyStore) (d : List (String × PyVal)) {r : Nat}
    (h : r < s.heap.length) : ((s.alloc d).2).read r = s.read r := by
  show (s.heap ++ [d]).get? r = s.heap.get? r
  exact List.get?_append h

/-- C10: the caller's `training_inputs` dict is left unchanged by
`start_aip_training` whether it returns or raises: the copy at line 113 is
a fresh object, and the `masterConfig`, `args` and `labels` insertions and
the `project` removal mutate only the copy. -/
theorem caller_training_inputs_unchanged (env : AipEnv)
    (ecp ji jo jep : String) (s0 : PyStore) (r0 : Nat) (jobId : Option String)
    (h : r0 < s0.heap.length) :
    ((startAipTrainingMutations env ecp ji jo jep s0 r0 jobId).1).read r0 = s0.read r0 := by
  obtain ⟨ti, hti⟩ : ∃ ti, s0.read r0 = some ti := by
    rw [PyStore.read, List.get?_eq_get h]
    exact ⟨_, rfl⟩
  have hne : (s0.alloc ti).1 ≠ r0 := by
    show s0.heap.length ≠ r0
    omega
  simp only [startAipTrainingMutations, hti]
  split
  · rw [pyStore_read_write_ne _ _ hne, pyStore_read_write_ne _ _ hne,
      pyStore_read_write_ne _ _ hne, pyStore_read_alloc s0 ti h]
    exact hti
  · rw [pyStore_read_write_ne _ _ hne, pyStore_read_write_ne _ _ hne,
      pyStore_read_write_ne _ _ hne, pyStore_read_write_ne _ _ hne,
      pyStore_read_alloc s0 ti h]
    exact hti

/-- Witness for C10 on a concrete one-cell heap. -/
theorem caller_training_inputs_unchanged_witness :
    ((startAipTrainingMutations ⟨"0.14.0", ⟨2019, 1, 1, 0, 0, 0⟩, []⟩ "e" "i" "o" "x"
        ⟨[[("project", PyVal.str "p1")]]⟩ 0 none).1).read 0
      = PyStore.read ⟨[[("project", PyVal.str "p1")]]⟩ 0 :=
  caller_training_inputs_unchanged ⟨"0.14.0", ⟨2019, 1, 1, 0, 0, 0⟩, []⟩ "e" "i" "o" "x"
    ⟨[[("project", PyVal.str "p1")]]⟩ 0 none (by decide)

/-- C8: when the caller's `training_inputs` omits `masterConfig` (and
names a project, so submission is reached), the submitted payload's
`masterConfig` is `{'imageUri': 'gcr.io/tfx-oss-public/tfx:<release>'}` —
the fixed default image tagged with the running release version. -/
theorem master_config_defaulted_to_tfx_image (env : AipEnv)
    (ecp ji jo jep : String) (ti : List (String × PyVal)) (jobId : Option String)
    (p : PyVal)
    (hmc : dictGet "masterConfig" ti = none)
    (hp : dictGet "project" ti = some p) :
    ∃ parent spec,
      buildJobSpec env ecp ji jo jep ti jobId = Except.ok (parent, spec) ∧
      dictGet "masterConfig" spec.trainingInput
        = some (PyVal.dictSS [("imageUri", "gcr.io/tfx-oss-public/tfx:" ++ env.tfxVersion)]) := by
  have htr : pyTruthy (dictGet "masterConfig" ti) = false := by
    rw [hmc]
    rfl
  have hif : (if pyTruthy (dictGet "masterConfig" ti) = true then ti
      else dictSet "masterConfig" (PyVal.dictSS [("imageUri", TFX_IMAGE env.tfxVersion)]) ti)
      = dictSet "masterConfig" (PyVal.dictSS [("imageUri", TFX_IMAGE env.tfxVersion)]) ti := by
    rw [htr]
    simp
  have hp3 : dictGet "project"
      (dictSet "labels" (labelsFieldValue env.labelDefaults (dictGet "labels"
          (dictSet "args" (PyVal.strList (jobArgs ecp ji jo jep))
            (dictSet "masterConfig" (PyVal.dictSS [("imageUri", TFX_IMAGE env.tfxVersion)]) ti))))
        (dictSet "args" (PyVal.strList (jobArgs ecp ji jo jep))
          (dictSet "masterConfig" (PyVal.dictSS [("imageUri", TFX_IMAGE env.tfxVersion)]) ti)))
      = some p := by
    rw [dictGet_dictSet_ne _ _ (show ("labels" : String) ≠ "project" by decide),
      dictGet_dictSet_ne _ _ (show ("args" : String) ≠ "project" by decide),
      dictGet_dictSet_ne _ _ (show ("masterConfig" : String) ≠ "project" by decide), hp]
  have hmc3 : dictGet "masterConfig"
      (dictSet "labels" (labelsFieldValue env.labelDefaults (dictGet "labels"
          (dictSet "args" (PyVal.strList (jobArgs ecp ji jo jep))
            (dictSet "masterConfig" (PyVal.dictSS [("imageUri", TFX_IMAGE env.tfxVersion)]) ti))))
        (dictSet "args" (PyVal.strList (jobArgs ecp ji jo jep))
          (dictSet "masterConfig" (PyVal.dictSS [("imageUri", TFX_IMAGE env.tfxVersion)]) ti)))
      = some (PyVal.dictSS [("imageUri", TFX_IMAGE env.tfxVersion)]) := by
    rw [dictGet_dictSet_ne _ _ (show ("labels" : String) ≠ "masterConfig" by decide),
      dictGet_dictSet_ne _ _ (show ("args" : String) ≠ "masterConfig" by decide),
      dictGet_dictSet_self]
  rcases hpop : dictPop "project"
      (dictSet "labels" (labelsFieldValue env.labelDefaults (dictGet "labels"
          (dictSet "args" (PyVal.strList (jobArgs ecp ji jo jep))
            (dictSet "masterConfig" (PyVal.dictSS [("imageUri", TFX_IMAGE env.tfxVersion)]) ti))))
        (dictSet "args" (PyVal.strList (jobArgs ecp ji jo jep))
          (dictSet "masterConfig" (PyVal.dictSS [("imageUri", TFX_IMAGE env.tfxVersion)]) ti)))
    with ⟨vOpt, ti4⟩
  have hfst := dictPop_fst "project"
      (dictSet "labels" (labelsFieldValue env.labelDefaults (dictGet "labels"
          (dictSet "args" (PyVal.strList (jobArgs ecp ji jo jep))
            (dictSet "masterConfig" (PyVal.dictSS [("imageUri", TFX_IMAGE env.tfxVersion)]) ti))))
        (dictSet "args" (PyVal.strList (jobArgs ecp ji jo jep))
          (dictSet "masterConfig" (PyVal.dictSS [("imageUri", TFX_IMAGE env.tfxVersion)]) ti)))
  rw [hpop, hp3] at hfst
  have hvp : vOpt = some p := hfst
  subst hvp
  have hmc4 : dictGet "masterConfig" ti4
      = some (PyVal.dictSS [("imageUri", TFX_IMAGE env.tfxVersion)]) := by
    have h5 := dictGet_dictPop_ne
      (d := dictSet "labels" (labelsFieldValue env.labelDefaults (dictGet "labels"
          (dictSet "args" (PyVal.strList (jobArgs ecp ji jo jep))
            (dictSet "masterConfig" (PyVal.dictSS [("imageUri", TFX_IMAGE env.tfxVersion)]) ti))))
        (dictSet "args" (PyVal.strList (jobArgs ecp ji jo jep))
          (dictSet "masterConfig" (PyVal.dictSS [("imageUri", TFX_IMAGE env.tfxVersion)]) ti)))
      (show ("project" : String) ≠ "masterConfig" by decide)
    rw [hpop] at h5
    rw [← hmc3]
    exact h5
  refine ⟨"projects/" ++ pyFormat p, ⟨defaultJobId jobId env.now, ti4⟩, ?_, ?_⟩
  · simp only [buildJobSpec, startAipTrainingMutations, PyStore.read, List.get?, hif, hpop]
  · exact hmc4

/-- Witness for C8 at a concrete configuration that omits `masterConfig`. -/
theorem master_config_defaulted_to_tfx_image_witness :
    ∃ parent spec,
      buildJobSpec ⟨"0.14.0", ⟨2019, 1, 1, 0, 0, 0⟩, []⟩ "e" "i" "o" "x"
          [("project", PyVal.str "p1")] none = Except.ok (parent, spec) ∧
      dictGet "masterConfig" spec.trainingInput
        = some (PyVal.dictSS [("imageUri", "gcr.io/tfx-oss-public/tfx:" ++ "0.14.0")]) :=
  master_config_defaulted_to_tfx_image ⟨"0.14.0", ⟨2019, 1, 1, 0, 0, 0⟩, []⟩ "e" "i" "o" "x"
    [("project", PyVal.str "p1")] none (PyVal.str "p1") (by decide) (by decide)

/-- C9: `json.dumps(exec_properties, sort_keys=True)` is deterministic in
the key-value set: two execution-properties dicts holding the same
entries in different insertion orders serialize to byte-identical
output. -/
theorem exec_properties_serialization_deterministic
    (l1 l2 : List (String × JVal))
    (hkeys : (l1.map Prod.fst).Nodup) (hperm : l1.Perm l2) :
    jsonDumpsSorted l1 = jsonDumpsSorted l2 := by
  haveI : IsTotal (String × JVal) (fun a b => a.1 ≤ b.1) := ⟨fun a b => le_total a.1 b.1⟩
  haveI : IsTrans (String × JVal) (fun a b => a.1 ≤ b.1) := ⟨fun _ _ _ h1 h2 => le_trans h1 h2⟩
  haveI : IsAntisymm (String × JVal) (fun a b => a.1 < b.1) :=
    ⟨fun _ _ h1 h2 => absurd (lt_trans h1 h2) (lt_irrefl _)⟩
  have hs1 : (List.insertionSort (fun a b => a.1 ≤ b.1) l1).Perm
      (List.insertionSort (fun a b => a.1 ≤ b.1) l2) :=
    ((List.perm_insertionSort (fun a b => a.1 ≤ b.1) l1).trans hperm).trans
      (List.perm_insertionSort (fun a b => a.1 ≤ b.1) l2).symm
  have hne1 : l1.Pairwise (fun a b : String × JVal => a.1 ≠ b.1) :=
    List.pairwise_map.mp hkeys
  have hne2 : l2.Pairwise (fun a b : String × JVal => a.1 ≠ b.1) :=
    (hperm.pairwise_iff (fun h => Ne.symm h)).mp hne1
  have hneS1 : (List.insertionSort (fun a b => a.1 ≤ b.1) l1).Pairwise
      (fun a b : String × JVal => a.1 ≠ b.1) :=
    ((List.perm_insertionSort (fun a b => a.1 ≤ b.1) l1).pairwise_iff
      (fun h => Ne.symm h)).mpr hne1
  have hneS2 : (List.insertionSort (fun a b => a.1 ≤ b.1) l2).Pairwise
      (fun a b : String × JVal => a.1 ≠ b.1) :=
    ((List.perm_insertionSort (fun a b => a.1 ≤ b.1) l2).pairwise_iff
      (fun h => Ne.symm h)).mpr hne2
  have hlt1 : List.Sorted (fun a b : String × JVal => a.1 < b.1)
      (List.insertionSort (fun a b => a.1 ≤ b.1) l1) :=
    List.Pairwise.imp (fun h => lt_of_le_of_ne h.1 h.2)
      ((List.sorted_insertionSort (fun a b => a.1 ≤ b.1) l1).and hneS1)
  have hlt2 : List.Sorted (fun a b : String × JVal => a.1 < b.1)
      (List.insertionSort (fun a b => a.1 ≤ b.1) l2) :=
    List.Pairwise.imp (fun h => lt_of_le_of_ne h.1 h.2)
      ((List.sorted_insertionSort (fun a b => a.1 ≤ b.1) l2).and hneS2)
  have heq := List.eq_of_perm_of_sorted hs1 hlt1 hlt2
  rw [jsonDumpsSorted, jsonDumpsSorted, heq]

/-- Witness for C9: the same two entries in either insertion order. -/
theorem exec_properties_serialization_deterministic_witness :
    jsonDumpsSorted [("b", JVal.jnum 1), ("a", JVal.jstr "x")]
      = jsonDumpsSorted [("a", JVal.jstr "x"), ("b", JVal.jnum 1)] :=
  exec_properties_serialization_deterministic
    [("b", JVal.jnum 1), ("a", JVal.jstr "x")]
    [("a", JVal.jstr "x"), ("b", JVal.jnum 1)] (by decide) (by decide)

end AipRunner
